import Mathlib

/-!
Verification of `src/binaries/runtime/src/operator/python.rs` (dora runtime,
Python operator host).  The file hosts one Python operator: it resolves the
operator source to a local path, initializes the Python operator object,
runs an event loop dispatching incoming events to `on_event`, relays guest
outputs through a callback, and converts every failure of the session body
into exactly one terminal `OperatorEvent`.

Shallow embedding conventions:
* Results of external, fallible steps (the filesystem, the download
  collaborator, every call into the Python interpreter) are inputs of the
  model, supplied through environment structures (`SourceEnv`, `InitEnv`,
  `GuestBehavior`).  The control flow around them is translated line by
  line from the source.
* `eyre` error values are modelled as their message strings; `wrap_err`
  is modelled as prepending the context followed by ": ".
* The outgoing mpsc channel is modelled as the list of events it delivered
  (the trace).  The terminal `blocking_send` ignores its result in the
  source (`let _ = ...`); the model records its payload as the last trace
  entry.  Per-output sends inside the callback carry an explicit
  channel-open flag because their failure is observable by the guest.
* Types imported from sibling modules that are not part of the sources
  (`IncomingEvent`, `OperatorEvent`, `StopReason` from `super`,
  `DoraStatus` from `dora_operator_api_types`) are modelled from the
  spec's data model, with constructor usage matching the source
  (`OperatorEvent::{Output, Finished, Error, Panic}`; the spec's
  `Aborted` terminal event is the source's `Panic` variant).
-/

namespace DoraPython

/-- Metadata parameters; the loop only touches `open_telemetry_context`
(rewritten before dispatch).  Other parameter fields are irrelevant to the
control flow and are not modelled. -/
structure MetadataParameters where
  open_telemetry_context : String
  deriving Repr, DecidableEq

/-- Metadata attached to an input event (modelled from the spec: the wire
layout of metadata is external; only the parameters touched by this file
appear). -/
structure Metadata where
  parameters : MetadataParameters
  deriving Repr, DecidableEq

/-- Modelled from the spec: `StopReason` is imported from the sibling
operator module, which is not part of the given sources.  The spec fixes
it as `{ExplicitStop, ExplicitStopAll, InputsClosed}`, the three
non-failure loop endings; the source uses these names. -/
inductive StopReason where
  | ExplicitStop
  | ExplicitStopAll
  | InputsClosed
  deriving Repr, DecidableEq

/-- Modelled from the spec: `IncomingEvent` is imported from the sibling
operator module, which is not part of the given sources.  The spec gives
at minimum an `Input` variant with id, payload and metadata; the source's
`if let IncomingEvent::Input {..}` shows further variants exist, folded
into `other`.  Payload bytes are `List Nat`. -/
inductive IncomingEvent where
  | Input (input_id : String) (data : List Nat) (metadata : Metadata)
  | other
  deriving Repr, DecidableEq

/-- Modelled from the spec: `OperatorEvent` is imported from the sibling
operator module, which is not part of the given sources.  The spec's
`OutgoingEvent` data model plus the constructor usage in the source give
`Output {output_id, metadata, data}`, `Finished {reason}`, `Error(err)`,
`Panic(payload)`; `Panic` is the spec's `Aborted`. -/
inductive OperatorEvent where
  | Output (output_id : String) (metadata : Metadata) (data : List Nat)
  | Finished (reason : StopReason)
  | Error (err : String)
  | Panic (info : String)
  deriving Repr, DecidableEq

/-- The three terminal events of the protocol: `Finished`, `Error`, `Panic`
(the spec's `Aborted`).  `Output` is the only non-terminal event. -/
def OperatorEvent.isTerminal : OperatorEvent → Bool
  | .Output _ _ _ => false
  | .Finished _ => true
  | .Error _ => true
  | .Panic _ => true

/-- Modelled from the spec: `DoraStatus` comes from
`dora_operator_api_types`, which is not part of the given sources; section
6 of the spec fixes the convention `{Continue = 0, Stop = 1, StopAll = 2}`.
The source uses the values as `DoraStatus::Continue as i32` etc. -/
def DoraStatus.Continue : Int := 0

/-- Modelled from the spec: `DoraStatus::Stop as i32`, see
`DoraStatus.Continue`. -/
def DoraStatus.Stop : Int := 1

/-- Modelled from the spec: `DoraStatus::StopAll as i32`, see
`DoraStatus.Continue`. -/
def DoraStatus.StopAll : Int := 2

/-- A Python exception as seen through pyo3: a message and an optional
formatted traceback (`err.traceback(py).and_then(|t| t.format().ok())`). -/
structure PyErr where
  msg : String
  tracebackText : Option String
  deriving Repr, DecidableEq

/-- Source lines 19-26: `fn traceback(err: pyo3::PyErr) -> eyre::Report`.
Formats the error together with its traceback when one is available. -/
def traceback (err : PyErr) : String :=
  match err.tracebackText with
  | some t => err.msg ++ t
  | none => err.msg

/-- Environment for source resolution (lines 38-58): outcomes of the
external steps — whether `source_is_url` holds (computed by
`dora_core::descriptor::source_is_url`, external), the tokio runtime
build, the download, the `path.exists()` check and `path.canonicalize()`
(which yields the canonical path string). -/
structure SourceEnv where
  source_is_url : Bool
  runtimeBuild : Except String Unit
  downloadResult : Except String Unit
  pathExists : Bool
  canonicalize : Except String String

/-- Source lines 38-58 of `run`: resolve the operator source to a local
path.  URL sources are downloaded to `build/<node_id>/<operator_id>.py`;
local sources are used as-is; the path must exist and is canonicalized. -/
def resolvePath (se : SourceEnv) (source node_id operator_id : String) :
    Except String String :=
  let urlPath : Except String String :=
    let target_path := "build/" ++ node_id ++ "/" ++ operator_id ++ ".py"
    match se.runtimeBuild with
    | .error e => .error e
    | .ok () =>
      match se.downloadResult with
      | .error e => .error ("failed to download Python operator: " ++ e)
      | .ok () => .ok target_path
  match (if se.source_is_url then urlPath else .ok source) with
  | .error e => .error e
  | .ok path =>
    if se.pathExists then
      match se.canonicalize with
      | .ok p => .ok p
      | .error e => .error ("no file found at `" ++ path ++ "`: " ++ e)
    else .error ("No python file exists at " ++ path)

/-- One invocation of `SendOutputCallback::__call__` (lines 214-236),
given the result of the external `pydict_to_metadata` parse and whether the
outgoing channel still has a receiver.  Returns the `Result` handed back to
the guest caller and the list of events actually delivered on the channel
(one `Output` on success, nothing on failure). -/
def sendOutputCall (channelOpen : Bool) (output : String) (data : List Nat)
    (metadataParse : Except String Metadata) :
    Except String Unit × List OperatorEvent :=
  match metadataParse with
  | .error _ => (.error "Could not parse metadata.", [])
  | .ok metadata =>
    if channelOpen then
      (.ok (), [.Output output metadata data])
    else
      (.error "failed to send output to runtime", [])

/-- One output-callback attempt made by the guest during a single
`on_event` call: the arguments it passes, the outcome of the external
`pydict_to_metadata` parse on its metadata dict, and whether the outgoing
channel still has a receiver at the moment of the `blocking_send`. -/
structure OutputAttempt where
  output : String
  data : List Nat
  metadataParse : Except String Metadata
  channelOpen : Bool

/-- Outcome of one `on_event` call, as observed by lines 148-154 of the
source (guest behavior; environment input):
* `raised`: `call_method1(py, "on_event", ..)` raised (line 150, mapped
  through `traceback`);
* `noValue`: the returned object has no `value` attribute (line 152,
  `wrap_err("on_event must have enum return value")`);
* `invalid`: `value` exists but does not extract to an `i32` (line 154,
  `wrap_err("on_event has invalid return value")`);
* `status v`: an `i32` status value was extracted;
* `panics`: a process-level panic unwinds out of the call. -/
inductive CallOutcome where
  | raised (e : PyErr)
  | noValue (e : String)
  | invalid (e : String)
  | status (v : Int)
  | panics (info : String)

/-- Per-invocation guest behavior (environment input): the callback
attempts made in order during the call, whether the guest catches a
callback exception and keeps going (`handleCallbackError = true`) or lets
it propagate out of `on_event`, and the outcome the call reaches when no
unhandled callback exception cuts it short. -/
structure GuestBehavior where
  attempts : List OutputAttempt
  handleCallbackError : Bool
  outcome : CallOutcome

/-- Run the guest's output-callback attempts in order.  Each attempt is a
`SendOutputCallback::__call__`; a failing call returns an error into guest
code, which either swallows it (`handle = true`) or lets it propagate,
aborting the remaining attempts.  Returns the events delivered on the
channel and the message of the first unhandled callback exception, if
any. -/
def processAttempts (handle : Bool) :
    List OutputAttempt → List OperatorEvent × Option String
  | [] => ([], none)
  | a :: rest =>
    let (res, sent) := sendOutputCall a.channelOpen a.output a.data a.metadataParse
    match res with
    | .ok () =>
      let (evs, r) := processAttempts handle rest
      (sent ++ evs, r)
    | .error e =>
      if handle then
        let (evs, r) := processAttempts handle rest
        (sent ++ evs, r)
      else (sent, some e)

/-- One full `on_event` invocation: the outputs it delivered and the
outcome seen by the host.  An unhandled callback exception propagates out
of `on_event` as a raised Python exception (no traceback recorded). -/
def guestCall (b : GuestBehavior) : List OperatorEvent × CallOutcome :=
  let (evs, r) := processAttempts b.handleCallbackError b.attempts
  match r with
  | some e => (evs, .raised ⟨e, none⟩)
  | none => (evs, b.outcome)

/-- Lines 108-133 (non-telemetry configuration): before dispatch, the
`open_telemetry_context` parameter of an `Input` event is rewritten to the
empty string; other variants pass through unchanged. -/
def rewriteEvent : IncomingEvent → IncomingEvent
  | .Input input_id data metadata =>
    .Input input_id data
      { metadata with parameters := { metadata.parameters with open_telemetry_context := "" } }
  | .other => .other

/-- How the event loop (lines 105-162) ends: with a `StopReason` (`break`),
with an error propagating out via `?`/`bail!`, or with a panic
unwinding. -/
inductive LoopEnd where
  | reason (r : StopReason)
  | failed (e : String)
  | panicked (info : String)

/-- Observable result of the event loop: the `Output` events delivered on
the outgoing channel, the number of `on_event` invocations made, and how
the loop ended. -/
structure LoopOut where
  sent : List OperatorEvent
  dispatches : Nat
  outcome : LoopEnd

/-- Lines 105-162 of the source: the event loop.  `onEvent i ev` is the
guest's behavior for the `i`-th `on_event` invocation, given the
(context-rewritten) event it receives.  Receiving from an exhausted
upstream channel breaks with `StopReason::InputsClosed`; otherwise the
event is rewritten and dispatched, and the status decides: `Continue`
keeps looping, `Stop`/`StopAll` break with the explicit stop reasons, any
other value is `bail!("on_event returned invalid status {other}")`, and a
raised exception or malformed return propagates as an error. -/
def eventLoop (onEvent : Nat → IncomingEvent → GuestBehavior) :
    Nat → List IncomingEvent → LoopOut
  | _, [] => ⟨[], 0, .reason .InputsClosed⟩
  | i, ev :: rest =>
    let b := onEvent i (rewriteEvent ev)
    let (evs, out) := guestCall b
    match out with
    | .panics info => ⟨evs, 1, .panicked info⟩
    | .raised e => ⟨evs, 1, .failed (traceback e)⟩
    | .noValue e => ⟨evs, 1, .failed ("on_event must have enum return value: " ++ e)⟩
    | .invalid e => ⟨evs, 1, .failed ("on_event has invalid return value: " ++ e)⟩
    | .status v =>
      if v = DoraStatus.Continue then
        let r := eventLoop onEvent (i + 1) rest
        ⟨evs ++ r.sent, 1 + r.dispatches, r.outcome⟩
      else if v = DoraStatus.Stop then ⟨evs, 1, .reason .ExplicitStop⟩
      else if v = DoraStatus.StopAll then ⟨evs, 1, .reason .ExplicitStopAll⟩
      else ⟨evs, 1, .failed ("on_event returned invalid status " ++ toString v)⟩

/-- Environment for `init_operator` (lines 65-97): the outcome of each
external step, in source order.  `panics` marks a panic unwinding out of
initialization (covered by the same `catch_unwind`). -/
structure InitEnv where
  hasParent : Bool
  parentPathUtf8 : Bool
  importSys : Except String Unit
  getattrPath : Except String Unit
  getattrAppend : Except String Unit
  callAppend : Except String Unit
  hasFileStem : Bool
  stemUtf8 : Bool
  importModule : Except PyErr Unit
  getattrOperator : Except String Unit
  evalConstruct : Except PyErr Unit
  panics : Option String

/-- Result of `init_operator`: a constructed operator instance (its
identity is irrelevant, only that it exists), an error report, or a
panic. -/
inductive InitResult where
  | ok
  | error (e : String)
  | panic (info : String)

/-- Lines 65-97 of the source: `init_operator`.  Registers the module's
parent directory on `sys.path` (when the path has a parent), imports the
module named by the file stem, looks up the `Operator` class and
instantiates it with no arguments.  Each failure carries the wrap-err
context of the source; import and construction failures carry the guest
traceback. -/
def init_operator (ie : InitEnv) : InitResult :=
  match ie.panics with
  | some info => .panic info
  | none =>
    let sysPathStep : Except String Unit :=
      if ie.hasParent then
        if !ie.parentPathUtf8 then .error "module path is not valid utf8"
        else
          match ie.importSys with
          | .error e => .error ("failed to import `sys` module: " ++ e)
          | .ok () =>
            match ie.getattrPath with
            | .error e => .error ("failed to import `sys.path` module: " ++ e)
            | .ok () =>
              match ie.getattrAppend with
              | .error e => .error ("`sys.path.append` was not found: " ++ e)
              | .ok () =>
                match ie.callAppend with
                | .error e =>
                  .error ("failed to append module path to python search path: " ++ e)
                | .ok () => .ok ()
      else .ok ()
    match sysPathStep with
    | .error e => .error e
    | .ok () =>
      if !ie.hasFileStem then .error "module path has no file stem"
      else if !ie.stemUtf8 then .error "module file stem is not valid utf8"
      else
        match ie.importModule with
        | .error pe => .error (traceback pe)
        | .ok () =>
          match ie.getattrOperator with
          | .error e => .error ("no `Operator` class found in module: " ++ e)
          | .ok () =>
            match ie.evalConstruct with
            | .error pe => .error (traceback pe)
            | .ok () => .ok

/-- How `python_runner` (as a closure body) ends, before the
`catch_unwind` boundary classifies it. -/
inductive RunnerResult where
  | ok (reason : StopReason)
  | err (e : String)
  | panicked (info : String)

/-- Observable result of `python_runner` (lines 99-171): events delivered
during the loop, dispatch count, whether the `init_done` signal send was
attempted (line 103), whether the explicit GIL-held `drop(operator)` of
lines 164-168 was executed, and how the closure ended. -/
structure RunnerOut where
  sent : List OperatorEvent
  dispatches : Nat
  initDoneSent : Bool
  explicitDrop : Bool
  result : RunnerResult

/-- Lines 99-171 of the source: `python_runner`.  Initializes the operator
(wrapping failures with "failed to init python operator"), sends the
best-effort `init_done` signal, runs the event loop, and — only when the
loop breaks with a `StopReason` — reaches lines 164-168, which explicitly
drop the operator instance while holding the GIL.  An error propagating
via `?`/`bail!`, or a panic, leaves the closure before that explicit drop.
-/
def python_runner (ie : InitEnv) (onEvent : Nat → IncomingEvent → GuestBehavior)
    (events : List IncomingEvent) : RunnerOut :=
  match init_operator ie with
  | .panic info => ⟨[], 0, false, false, .panicked info⟩
  | .error e => ⟨[], 0, false, false, .err ("failed to init python operator: " ++ e)⟩
  | .ok =>
    let lo := eventLoop onEvent 0 events
    match lo.outcome with
    | .reason r => ⟨lo.sent, lo.dispatches, true, true, .ok r⟩
    | .failed e => ⟨lo.sent, lo.dispatches, true, false, .err e⟩
    | .panicked info => ⟨lo.sent, lo.dispatches, true, false, .panicked info⟩

/-- Full environment of one `run` invocation: arguments plus the outcomes
of every external step. -/
structure Env where
  source : String
  node_id : String
  operator_id : String
  src : SourceEnv
  init : InitEnv
  onEvent : Nat → IncomingEvent → GuestBehavior
  events : List IncomingEvent

/-- Observable result of `run`: its return value, the full trace of events
delivered on `events_tx`, and session bookkeeping. -/
structure RunOut where
  result : Except String Unit
  trace : List OperatorEvent
  dispatches : Nat
  initDoneSent : Bool
  explicitDrop : Bool

/-- The terminal event the `catch_unwind` match (lines 178-188) sends for a
given closure result: `Ok(Ok(reason))` → `Finished`, `Ok(Err(err))` →
`Error`, `Err(panic)` → `Panic`.  The error is the closure's, already
wrapped with "error in Python module at {path}" (lines 173-176). -/
def terminalEvent (path : String) : RunnerResult → OperatorEvent
  | .ok reason => .Finished reason
  | .err e => .Error ("error in Python module at " ++ path ++ ": " ++ e)
  | .panicked info => .Panic info

/-- Lines 29-191 of the source: `run`.  Source resolution failures (lines
38-58) return an `Err` to the caller before the session body starts, with
nothing sent on the channel.  Otherwise the `python_runner` closure runs
under `catch_unwind` and its result — success, error, or panic — is
converted into exactly one terminal event appended to the trace, and `run`
returns `Ok(())`. -/
def run (env : Env) : RunOut :=
  match resolvePath env.src env.source env.node_id env.operator_id with
  | .error e => ⟨.error e, [], 0, false, false⟩
  | .ok path =>
    let r := python_runner env.init env.onEvent env.events
    ⟨.ok (), r.sent ++ [terminalEvent path r.result],
      r.dispatches, r.initDoneSent, r.explicitDrop⟩

/-- The `RunnerResult` a given loop ending turns into once the closure
returns (success keeps the reason; an error or panic propagates). -/
def LoopEnd.toResult : LoopEnd → RunnerResult
  | .reason r => .ok r
  | .failed e => .err e
  | .panicked info => .panicked info

/-- Whether a loop ending is a `StopReason` break (the only endings that
reach the explicit GIL-held drop of lines 164-168). -/
def LoopEnd.isReason : LoopEnd → Bool
  | .reason _ => true
  | .failed _ => false
  | .panicked _ => false


/-! ### Concrete session environments used by witnesses and
counterexamples -/

/-- A local source that exists and canonicalizes to `/abs/op.py`. -/
def okSrc : SourceEnv := ⟨false, .ok (), .ok (), true, .ok "/abs/op.py"⟩

/-- An initialization environment in which every external step succeeds. -/
def okInit : InitEnv :=
  ⟨true, true, .ok (), .ok (), .ok (), .ok (), true, true, .ok (), .ok (), .ok (), none⟩

/-- A session whose upstream channel is closed before any event arrives. -/
def envClosed : Env :=
  ⟨"op.py", "n", "o", okSrc, okInit, fun _ _ => ⟨[], false, .status 0⟩, []⟩

/-- A session whose handler returns `DoraStatus::Stop` on the first event,
with a second event still queued. -/
def envStop : Env :=
  ⟨"op.py", "n", "o", okSrc, okInit, fun _ _ => ⟨[], false, .status 1⟩,
    [.other, .other]⟩

/-- A session whose handler raises on the first of three queued events. -/
def envRaise : Env :=
  ⟨"op.py", "n", "o", okSrc, okInit,
    fun _ _ => ⟨[], false, .raised ⟨"ValueError: x", some "\nTraceback..."⟩⟩,
    [.other, .other, .other]⟩

/-- A session whose handler panics on the first event. -/
def envPanic : Env :=
  ⟨"op.py", "n", "o", okSrc, okInit, fun _ _ => ⟨[], false, .panics "stack overflow"⟩,
    [.other]⟩

/-- A session whose local source path does not exist on disk. -/
def envNoFile : Env :=
  ⟨"op.py", "n", "o", ⟨false, .ok (), .ok (), false, .ok "/abs/op.py"⟩, okInit,
    fun _ _ => ⟨[], false, .status 0⟩, []⟩

/-- A session whose operator construction (`Operator()`) raises. -/
def envInitFail : Env :=
  ⟨"op.py", "n", "o", okSrc,
    ⟨true, true, .ok (), .ok (), .ok (), .ok (), true, true, .ok (), .ok (),
      .error ⟨"TypeError: bad", none⟩, none⟩,
    fun _ _ => ⟨[], false, .status 0⟩, [.other]⟩


/-! ### Helper lemmas -/

lemma sendOutputCall_nonterminal (ch : Bool) (o : String) (d : List Nat)
    (mp : Except String Metadata) :
    ∀ e ∈ (sendOutputCall ch o d mp).2, e.isTerminal = false := by
  intro e he
  cases mp with
  | error _ => simp [sendOutputCall] at he
  | ok m =>
    cases ch <;> simp [sendOutputCall] at he
    subst he; rfl

lemma processAttempts_nonterminal (handle : Bool) (l : List OutputAttempt) :
    ∀ e ∈ (processAttempts handle l).1, e.isTerminal = false := by
  induction l with
  | nil => intro e he; simp [processAttempts] at he
  | cons a rest ih =>
    intro e he
    rcases hs : sendOutputCall a.channelOpen a.output a.data a.metadataParse with ⟨res, sent⟩
    have hsent : ∀ x ∈ sent, x.isTerminal = false := by
      intro x hx
      exact sendOutputCall_nonterminal a.channelOpen a.output a.data a.metadataParse x
        (by rw [hs]; exact hx)
    cases res with
    | ok _ =>
      simp [processAttempts, hs] at he
      rcases he with he | he
      · exact hsent e he
      · exact ih e he
    | error msg =>
      cases hh : handle with
      | true =>
        simp [processAttempts, hs, hh] at he
        rcases he with he | he
        · exact hsent e he
        · exact ih e (by simpa [hh] using he)
      | false =>
        simp [processAttempts, hs, hh] at he
        exact hsent e he

lemma guestCall_nonterminal (b : GuestBehavior) :
    ∀ e ∈ (guestCall b).1, e.isTerminal = false := by
  intro e he
  rcases hp : processAttempts b.handleCallbackError b.attempts with ⟨evs, r⟩
  have : ∀ x ∈ evs, x.isTerminal = false := by
    intro x hx
    exact processAttempts_nonterminal b.handleCallbackError b.attempts x (by rw [hp]; exact hx)
  cases r <;> simp [guestCall, hp] at he <;> exact this e he

lemma eventLoop_nonterminal (f : Nat → IncomingEvent → GuestBehavior) :
    ∀ (evs : List IncomingEvent) (i : Nat),
      ∀ e ∈ (eventLoop f i evs).sent, e.isTerminal = false := by
  intro evs
  induction evs with
  | nil => intro i e he; simp [eventLoop] at he
  | cons ev rest ih =>
    intro i e he
    rcases hg : guestCall (f i (rewriteEvent ev)) with ⟨evs', out⟩
    have hcall : ∀ x ∈ evs', x.isTerminal = false := by
      intro x hx
      exact guestCall_nonterminal (f i (rewriteEvent ev)) x (by rw [hg]; exact hx)
    cases out with
    | status v =>
      by_cases h0 : v = DoraStatus.Continue
      · simp [eventLoop, hg, h0] at he
        rcases he with he | he
        · exact hcall e he
        · exact ih (i + 1) e he
      · by_cases h1 : v = DoraStatus.Stop
        · simp [eventLoop, hg, h0, h1] at he; exact hcall e he
        · by_cases h2 : v = DoraStatus.StopAll
          · simp [eventLoop, hg, h0, h1, h2] at he; exact hcall e he
          · simp [eventLoop, hg, h0, h1, h2] at he; exact hcall e he
    | raised pe => simp [eventLoop, hg] at he; exact hcall e he
    | noValue msg => simp [eventLoop, hg] at he; exact hcall e he
    | invalid msg => simp [eventLoop, hg] at he; exact hcall e he
    | panics info => simp [eventLoop, hg] at he; exact hcall e he

lemma python_runner_nonterminal (ie : InitEnv) (f : Nat → IncomingEvent → GuestBehavior)
    (evs : List IncomingEvent) :
    ∀ e ∈ (python_runner ie f evs).sent, e.isTerminal = false := by
  intro e he
  cases hi : init_operator ie with
  | panic info => simp [python_runner, hi] at he
  | error msg => simp [python_runner, hi] at he
  | ok =>
    have hloop := eventLoop_nonterminal f evs 0 e
    rcases ho : (eventLoop f 0 evs).outcome with r | msg | info <;>
      simp [python_runner, hi, ho] at he <;> exact hloop he

lemma terminalEvent_terminal (p : String) (r : RunnerResult) :
    (terminalEvent p r).isTerminal = true := by
  cases r <;> rfl

lemma run_eq (env : Env) (p : String)
    (h : resolvePath env.src env.source env.node_id env.operator_id = .ok p) :
    run env =
      ⟨.ok (),
        (python_runner env.init env.onEvent env.events).sent ++
          [terminalEvent p (python_runner env.init env.onEvent env.events).result],
        (python_runner env.init env.onEvent env.events).dispatches,
        (python_runner env.init env.onEvent env.events).initDoneSent,
        (python_runner env.init env.onEvent env.events).explicitDrop⟩ := by
  simp [run, h]

lemma python_runner_of_reason (ie : InitEnv) (f : Nat → IncomingEvent → GuestBehavior)
    (evs : List IncomingEvent) (r : StopReason) (h : init_operator ie = .ok)
    (hr : (eventLoop f 0 evs).outcome = .reason r) :
    python_runner ie f evs =
      ⟨(eventLoop f 0 evs).sent, (eventLoop f 0 evs).dispatches, true, true, .ok r⟩ := by
  simp [python_runner, h, hr]

lemma python_runner_of_failed (ie : InitEnv) (f : Nat → IncomingEvent → GuestBehavior)
    (evs : List IncomingEvent) (e : String) (h : init_operator ie = .ok)
    (hr : (eventLoop f 0 evs).outcome = .failed e) :
    python_runner ie f evs =
      ⟨(eventLoop f 0 evs).sent, (eventLoop f 0 evs).dispatches, true, false, .err e⟩ := by
  simp [python_runner, h, hr]

lemma python_runner_of_panicked (ie : InitEnv) (f : Nat → IncomingEvent → GuestBehavior)
    (evs : List IncomingEvent) (info : String) (h : init_operator ie = .ok)
    (hr : (eventLoop f 0 evs).outcome = .panicked info) :
    python_runner ie f evs =
      ⟨(eventLoop f 0 evs).sent, (eventLoop f 0 evs).dispatches, true, false,
        .panicked info⟩ := by
  simp [python_runner, h, hr]

lemma python_runner_of_init_error (ie : InitEnv) (f : Nat → IncomingEvent → GuestBehavior)
    (evs : List IncomingEvent) (e : String) (h : init_operator ie = .error e) :
    python_runner ie f evs =
      ⟨[], 0, false, false, .err ("failed to init python operator: " ++ e)⟩ := by
  simp [python_runner, h]

lemma eventLoop_cons_of_status (f : Nat → IncomingEvent → GuestBehavior) (i : Nat)
    (ev : IncomingEvent) (rest : List IncomingEvent) (v : Int)
    (h : (guestCall (f i (rewriteEvent ev))).2 = .status v) :
    eventLoop f i (ev :: rest) =
      if v = DoraStatus.Continue then
        ⟨(guestCall (f i (rewriteEvent ev))).1 ++ (eventLoop f (i + 1) rest).sent,
          1 + (eventLoop f (i + 1) rest).dispatches, (eventLoop f (i + 1) rest).outcome⟩
      else if v = DoraStatus.Stop then
        ⟨(guestCall (f i (rewriteEvent ev))).1, 1, .reason .ExplicitStop⟩
      else if v = DoraStatus.StopAll then
        ⟨(guestCall (f i (rewriteEvent ev))).1, 1, .reason .ExplicitStopAll⟩
      else
        ⟨(guestCall (f i (rewriteEvent ev))).1, 1,
          .failed ("on_event returned invalid status " ++ toString v)⟩ := by
  rcases hg : guestCall (f i (rewriteEvent ev)) with ⟨evs', out⟩
  rw [hg] at h
  simp at h
  subst h
  by_cases h0 : v = DoraStatus.Continue
  · simp [eventLoop, hg, h0]
  · by_cases h1 : v = DoraStatus.Stop
    · simp [eventLoop, hg, h0, h1]
    · by_cases h2 : v = DoraStatus.StopAll
      · simp [eventLoop, hg, h0, h1, h2]
      · simp [eventLoop, hg, h0, h1, h2]

lemma eventLoop_cons_of_raised (f : Nat → IncomingEvent → GuestBehavior) (i : Nat)
    (ev : IncomingEvent) (rest : List IncomingEvent) (e : PyErr)
    (h : (guestCall (f i (rewriteEvent ev))).2 = .raised e) :
    eventLoop f i (ev :: rest) =
      ⟨(guestCall (f i (rewriteEvent ev))).1, 1, .failed (traceback e)⟩ := by
  rcases hg : guestCall (f i (rewriteEvent ev)) with ⟨evs', out⟩
  rw [hg] at h
  simp at h
  subst h
  simp [eventLoop, hg]

lemma eventLoop_cons_of_noValue (f : Nat → IncomingEvent → GuestBehavior) (i : Nat)
    (ev : IncomingEvent) (rest : List IncomingEvent) (e : String)
    (h : (guestCall (f i (rewriteEvent ev))).2 = .noValue e) :
    eventLoop f i (ev :: rest) =
      ⟨(guestCall (f i (rewriteEvent ev))).1, 1,
        .failed ("on_event must have enum return value: " ++ e)⟩ := by
  rcases hg : guestCall (f i (rewriteEvent ev)) with ⟨evs', out⟩
  rw [hg] at h
  simp at h
  subst h
  simp [eventLoop, hg]

lemma eventLoop_cons_of_invalid (f : Nat → IncomingEvent → GuestBehavior) (i : Nat)
    (ev : IncomingEvent) (rest : List IncomingEvent) (e : String)
    (h : (guestCall (f i (rewriteEvent ev))).2 = .invalid e) :
    eventLoop f i (ev :: rest) =
      ⟨(guestCall (f i (rewriteEvent ev))).1, 1,
        .failed ("on_event has invalid return value: " ++ e)⟩ := by
  rcases hg : guestCall (f i (rewriteEvent ev)) with ⟨evs', out⟩
  rw [hg] at h
  simp at h
  subst h
  simp [eventLoop, hg]

lemma eventLoop_cons_of_panics (f : Nat → IncomingEvent → GuestBehavior) (i : Nat)
    (ev : IncomingEvent) (rest : List IncomingEvent) (info : String)
    (h : (guestCall (f i (rewriteEvent ev))).2 = .panics info) :
    eventLoop f i (ev :: rest) =
      ⟨(guestCall (f i (rewriteEvent ev))).1, 1, .panicked info⟩ := by
  rcases hg : guestCall (f i (rewriteEvent ev)) with ⟨evs', out⟩
  rw [hg] at h
  simp at h
  subst h
  simp [eventLoop, hg]

lemma eventLoop_skip_continues (f : Nat → IncomingEvent → GuestBehavior) :
    ∀ (front : List IncomingEvent) (i : Nat) (rest : List IncomingEvent),
      (∀ j, (hj : j < front.length) →
        (guestCall (f (i + j) (rewriteEvent (front.get ⟨j, hj⟩)))).2 = .status 0) →
      (eventLoop f i (front ++ rest)).outcome =
        (eventLoop f (i + front.length) rest).outcome ∧
      (eventLoop f i (front ++ rest)).dispatches =
        front.length + (eventLoop f (i + front.length) rest).dispatches := by
  intro front
  induction front with
  | nil => intro i rest _; simp
  | cons ev front ih =>
    intro i rest h
    have h0 : (guestCall (f i (rewriteEvent ev))).2 = .status 0 := by
      have := h 0 (by simp)
      simpa using this
    have hstep := eventLoop_cons_of_status f i ev (front ++ rest) 0 h0
    have hrec := ih (i + 1) rest (fun j hj => by
      have := h (j + 1) (by simpa using Nat.succ_lt_succ hj)
      have harith : i + (j + 1) = i + 1 + j := by omega
      simpa [harith] using this)
    rw [show (0 : Int) = DoraStatus.Continue from rfl] at hstep
    rw [if_pos rfl] at hstep
    simp only [List.cons_append, List.length_cons]
    have harith : i + (front.length + 1) = i + 1 + front.length := by omega
    rw [hstep, harith]
    refine ⟨hrec.1, ?_⟩
    show 1 + (eventLoop f (i + 1) (front ++ rest)).dispatches = _
    rw [hrec.2]
    omega

lemma python_runner_eq_loop (ie : InitEnv) (f : Nat → IncomingEvent → GuestBehavior)
    (evs : List IncomingEvent) (h : init_operator ie = .ok) :
    python_runner ie f evs =
      ⟨(eventLoop f 0 evs).sent, (eventLoop f 0 evs).dispatches, true,
        (eventLoop f 0 evs).outcome.isReason, (eventLoop f 0 evs).outcome.toResult⟩ := by
  cases ho : (eventLoop f 0 evs).outcome <;>
    simp [python_runner, h, ho, LoopEnd.isReason, LoopEnd.toResult]

lemma getLast_append_singleton {α : Type} (l : List α) (a : α) :
    (l ++ [a]).getLast? = some a := by
  exact List.getLast?_concat l

lemma run_session (env : Env) (p : String)
    (hres : resolvePath env.src env.source env.node_id env.operator_id = .ok p)
    (hinit : init_operator env.init = .ok) :
    (run env).result = .ok () ∧
    (run env).trace = (eventLoop env.onEvent 0 env.events).sent ++
      [terminalEvent p (eventLoop env.onEvent 0 env.events).outcome.toResult] ∧
    (run env).dispatches = (eventLoop env.onEvent 0 env.events).dispatches ∧
    (run env).initDoneSent = true ∧
    (run env).explicitDrop = (eventLoop env.onEvent 0 env.events).outcome.isReason := by
  rw [run_eq env p hres, python_runner_eq_loop env.init env.onEvent env.events hinit]
  exact ⟨rfl, rfl, rfl, rfl, rfl⟩

lemma run_getLast_of (env : Env) (p : String)
    (hres : resolvePath env.src env.source env.node_id env.operator_id = .ok p)
    (hinit : init_operator env.init = .ok) :
    (run env).trace.getLast? =
      some (terminalEvent p (eventLoop env.onEvent 0 env.events).outcome.toResult) := by
  obtain ⟨-, htr, -, -, -⟩ := run_session env p hres hinit
  rw [htr]
  exact getLast_append_singleton _ _

lemma processAttempts_handled (l : List OutputAttempt) :
    (processAttempts true l).2 = none := by
  induction l with
  | nil => rfl
  | cons a rest ih =>
    rcases hs : sendOutputCall a.channelOpen a.output a.data a.metadataParse with ⟨res, sent⟩
    cases res <;> simp [processAttempts, hs, ih]

/-! ### Claims -/

/-- C1: once source resolution succeeds and the session body runs, exactly
one of the terminal events `Finished`, `Error`, `Panic` (the spec's
`Aborted`) is delivered on the outgoing channel, and it is the last
message on that channel — regardless of how the session terminated. -/
theorem c1_exactly_one_terminal (env : Env) (p : String)
    (h : resolvePath env.src env.source env.node_id env.operator_id = .ok p) :
    ((run env).trace.countP (fun e => e.isTerminal)) = 1 ∧
    ∃ pre t, (run env).trace = pre ++ [t] ∧ t.isTerminal = true ∧
      ∀ x ∈ pre, x.isTerminal = false := by
  have hr := run_eq env p h
  have htrace : (run env).trace =
      (python_runner env.init env.onEvent env.events).sent ++
        [terminalEvent p (python_runner env.init env.onEvent env.events).result] := by
    rw [hr]
  have hsent := python_runner_nonterminal env.init env.onEvent env.events
  constructor
  · rw [htrace, List.countP_append]
    have h1 : (python_runner env.init env.onEvent env.events).sent.countP
        (fun e => e.isTerminal) = 0 := by
      rw [List.countP_eq_zero]
      intro a ha
      simp [hsent a ha]
    rw [h1]
    simp [terminalEvent_terminal]
  · exact ⟨_, _, htrace, terminalEvent_terminal p _, hsent⟩

/-- C1 witness: a concrete session (inputs closed immediately) delivering
exactly the trace `[Finished InputsClosed]`. -/
theorem c1_exactly_one_terminal_witness :
    resolvePath envClosed.src envClosed.source envClosed.node_id
      envClosed.operator_id = .ok "/abs/op.py" ∧
    (((run envClosed).trace.countP (fun e => e.isTerminal)) = 1 ∧
      ∃ pre t, (run envClosed).trace = pre ++ [t] ∧ t.isTerminal = true ∧
        ∀ x ∈ pre, x.isTerminal = false) :=
  ⟨rfl, c1_exactly_one_terminal envClosed "/abs/op.py" rfl⟩

/-- C2 counterexample: when the source path does not exist, `run` sends
nothing on the outgoing channel (in particular, no terminal `Error` event)
and instead returns the error to its caller, so the claimed
`Error{SourceNotFound}` terminal event is never emitted. -/
theorem c2_counterexample :
    (run envNoFile).trace = [] ∧
    (run envNoFile).result = .error "No python file exists at op.py" ∧
    (run envNoFile).dispatches = 0 ∧
    (run envNoFile).initDoneSent = false :=
  ⟨rfl, rfl, rfl, rfl⟩

/-- C2 amended: initialization errors that occur inside the guest runner
(path-encoding, import, missing entry type, construction) are reported as
a terminal `Error` event before any event is processed, with the init
signal unsent; but source-resolution failures (in particular a nonexistent
source path) happen before the session body and are returned as an `Err`
from `run` with nothing sent on the outgoing channel. -/
theorem c2_amended_init_errors (env : Env) (p e : String) :
    (resolvePath env.src env.source env.node_id env.operator_id = .ok p →
      init_operator env.init = .error e →
      (run env).trace = [.Error ("error in Python module at " ++ p ++ ": " ++
        ("failed to init python operator: " ++ e))] ∧
      (run env).dispatches = 0 ∧ (run env).initDoneSent = false) ∧
    (env.src.source_is_url = false → env.src.pathExists = false →
      (run env).result = .error ("No python file exists at " ++ env.source) ∧
      (run env).trace = [] ∧ (run env).dispatches = 0 ∧
      (run env).initDoneSent = false) := by
  constructor
  · intro hres hinit
    have hr := run_eq env p hres
    have hpr := python_runner_of_init_error env.init env.onEvent env.events e hinit
    rw [hr, hpr]
    exact ⟨rfl, rfl, rfl⟩
  · intro hurl hex
    have hres : resolvePath env.src env.source env.node_id env.operator_id =
        .error ("No python file exists at " ++ env.source) := by
      simp [resolvePath, hurl, hex]
    rw [show run env = ⟨.error ("No python file exists at " ++ env.source),
        [], 0, false, false⟩ by simp [run, hres]]
    exact ⟨rfl, rfl, rfl, rfl⟩

/-- C2 amended witness: a concrete construction failure yields exactly one
terminal `Error` with zero dispatches; a concrete missing source path
yields an `Err` return with an empty trace. -/
theorem c2_amended_init_errors_witness :
    ((run envInitFail).trace = [.Error ("error in Python module at /abs/op.py: failed to init python operator: TypeError: bad")] ∧
      (run envInitFail).dispatches = 0 ∧ (run envInitFail).initDoneSent = false) ∧
    ((run envNoFile).result = .error "No python file exists at op.py" ∧
      (run envNoFile).trace = [] ∧ (run envNoFile).dispatches = 0 ∧
      (run envNoFile).initDoneSent = false) :=
  ⟨(c2_amended_init_errors envInitFail "/abs/op.py" "TypeError: bad").1 rfl rfl,
    (c2_amended_init_errors envNoFile "" "").2 rfl rfl⟩

/-- C10 (implicit): when source resolution fails (download failure, no
file at the path, or canonicalization failure), `run` returns the error to
its caller and no message of any kind is sent on the outgoing channel. -/
theorem c10_resolution_failure_silent (env : Env) (e : String)
    (h : resolvePath env.src env.source env.node_id env.operator_id = .error e) :
    (run env).result = .error e ∧ (run env).trace = [] ∧
    (run env).dispatches = 0 ∧ (run env).initDoneSent = false := by
  rw [show run env = ⟨.error e, [], 0, false, false⟩ by simp [run, h]]
  exact ⟨rfl, rfl, rfl, rfl⟩

/-- C10 witness: the missing-source session returns the resolution error
and an empty trace. -/
theorem c10_resolution_failure_silent_witness :
    resolvePath envNoFile.src envNoFile.source envNoFile.node_id
      envNoFile.operator_id = .error "No python file exists at op.py" ∧
    ((run envNoFile).result = .error "No python file exists at op.py" ∧
      (run envNoFile).trace = [] ∧ (run envNoFile).dispatches = 0 ∧
      (run envNoFile).initDoneSent = false) :=
  ⟨rfl, c10_resolution_failure_silent envNoFile "No python file exists at op.py" rfl⟩

/-- C3: for a handler invocation reached after a run of `Continue`
results, the returned status decides the next step exactly: 0 keeps the
loop running (the remaining events are processed), 1 ends the session with
`Finished{ExplicitStop}`, 2 with `Finished{ExplicitStopAll}`, any other
integer — and any return value without an extractable integer status —
ends the session immediately with a terminal `Error`. -/
theorem c3_status_decides (env : Env) (p : String) (front : List IncomingEvent)
    (ev : IncomingEvent) (rest : List IncomingEvent)
    (hres : resolvePath env.src env.source env.node_id env.operator_id = .ok p)
    (hinit : init_operator env.init = .ok)
    (hev : env.events = front ++ ev :: rest)
    (hfront : ∀ j, (hj : j < front.length) →
      (guestCall (env.onEvent j (rewriteEvent (front.get ⟨j, hj⟩)))).2 = .status 0) :
    (∀ v, (guestCall (env.onEvent front.length (rewriteEvent ev))).2 = .status v →
      (v = 0 → (run env).dispatches =
          front.length + 1 + (eventLoop env.onEvent (front.length + 1) rest).dispatches) ∧
      (v = 1 → (run env).trace.getLast? = some (.Finished .ExplicitStop) ∧
          (run env).dispatches = front.length + 1) ∧
      (v = 2 → (run env).trace.getLast? = some (.Finished .ExplicitStopAll) ∧
          (run env).dispatches = front.length + 1) ∧
      (v ≠ 0 → v ≠ 1 → v ≠ 2 → (run env).trace.getLast? =
          some (.Error ("error in Python module at " ++ p ++ ": " ++
            ("on_event returned invalid status " ++ toString v))) ∧
          (run env).dispatches = front.length + 1)) ∧
    (∀ e, (guestCall (env.onEvent front.length (rewriteEvent ev))).2 = .noValue e →
      (run env).trace.getLast? = some (.Error ("error in Python module at " ++ p ++ ": " ++
        ("on_event must have enum return value: " ++ e))) ∧
      (run env).dispatches = front.length + 1) ∧
    (∀ e, (guestCall (env.onEvent front.length (rewriteEvent ev))).2 = .invalid e →
      (run env).trace.getLast? = some (.Error ("error in Python module at " ++ p ++ ": " ++
        ("on_event has invalid return value: " ++ e))) ∧
      (run env).dispatches = front.length + 1) := by
  have hfront0 : ∀ j, (hj : j < front.length) →
      (guestCall (env.onEvent (0 + j) (rewriteEvent (front.get ⟨j, hj⟩)))).2 = .status 0 :=
    fun j hj => by simpa using hfront j hj
  have hpre := eventLoop_skip_continues env.onEvent front 0 (ev :: rest) hfront0
  simp only [Nat.zero_add] at hpre
  rw [← hev] at hpre
  obtain ⟨-, -, hdisp, -, -⟩ := run_session env p hres hinit
  have hlast := run_getLast_of env p hres hinit
  refine ⟨?_, ?_, ?_⟩
  · intro v hv
    have hstep := eventLoop_cons_of_status env.onEvent front.length ev rest v hv
    refine ⟨?_, ?_, ?_, ?_⟩
    · intro h0
      subst h0
      rw [if_pos (show (0 : Int) = DoraStatus.Continue from rfl)] at hstep
      rw [hdisp, hpre.2, hstep]
      show front.length + (1 + _) = _
      omega
    · intro h1
      subst h1
      rw [if_neg (show ¬((1 : Int) = DoraStatus.Continue) by decide),
        if_pos (show (1 : Int) = DoraStatus.Stop from rfl)] at hstep
      constructor
      · rw [hlast, hpre.1, hstep]
        rfl
      · rw [hdisp, hpre.2, hstep]
    · intro h2
      subst h2
      rw [if_neg (show ¬((2 : Int) = DoraStatus.Continue) by decide),
        if_neg (show ¬((2 : Int) = DoraStatus.Stop) by decide),
        if_pos (show (2 : Int) = DoraStatus.StopAll from rfl)] at hstep
      constructor
      · rw [hlast, hpre.1, hstep]
        rfl
      · rw [hdisp, hpre.2, hstep]
    · intro h0 h1 h2
      rw [if_neg (show ¬(v = DoraStatus.Continue) from h0),
        if_neg (show ¬(v = DoraStatus.Stop) from h1),
        if_neg (show ¬(v = DoraStatus.StopAll) from h2)] at hstep
      constructor
      · rw [hlast, hpre.1, hstep]
        rfl
      · rw [hdisp, hpre.2, hstep]
  · intro e he
    have hstep := eventLoop_cons_of_noValue env.onEvent front.length ev rest e he
    constructor
    · rw [hlast, hpre.1, hstep]
      rfl
    · rw [hdisp, hpre.2, hstep]
  · intro e he
    have hstep := eventLoop_cons_of_invalid env.onEvent front.length ev rest e he
    constructor
    · rw [hlast, hpre.1, hstep]
      rfl
    · rw [hdisp, hpre.2, hstep]

/-- C3 witness: a concrete handler returning status 1 on the first event
(with a second event still queued) ends the session with
`Finished{ExplicitStop}` after exactly one dispatch. -/
theorem c3_status_decides_witness :
    (run envStop).trace.getLast? = some (.Finished .ExplicitStop) ∧
    (run envStop).dispatches = 1 :=
  ((c3_status_decides envStop "/abs/op.py" [] .other [.other] rfl rfl rfl
    (fun j hj => absurd hj (Nat.not_lt_zero j))).1 1 rfl).2.1 rfl

/-- C5: a guest handler that raises inside its `on_event` call body ends
the session on that same cycle with a terminal `Error` carrying the guest
diagnostic (message plus available traceback text), and no further
incoming events are dispatched afterward. -/
theorem c5_guest_raise_fatal (env : Env) (p : String) (front : List IncomingEvent)
    (ev : IncomingEvent) (rest : List IncomingEvent) (e : PyErr)
    (hres : resolvePath env.src env.source env.node_id env.operator_id = .ok p)
    (hinit : init_operator env.init = .ok)
    (hev : env.events = front ++ ev :: rest)
    (hfront : ∀ j, (hj : j < front.length) →
      (guestCall (env.onEvent j (rewriteEvent (front.get ⟨j, hj⟩)))).2 = .status 0)
    (hraise : (guestCall (env.onEvent front.length (rewriteEvent ev))).2 = .raised e) :
    (run env).trace.getLast? =
      some (.Error ("error in Python module at " ++ p ++ ": " ++ traceback e)) ∧
    (run env).dispatches = front.length + 1 ∧
    (∀ t, e.tracebackText = some t → traceback e = e.msg ++ t) := by
  have hfront0 : ∀ j, (hj : j < front.length) →
      (guestCall (env.onEvent (0 + j) (rewriteEvent (front.get ⟨j, hj⟩)))).2 = .status 0 :=
    fun j hj => by simpa using hfront j hj
  have hpre := eventLoop_skip_continues env.onEvent front 0 (ev :: rest) hfront0
  simp only [Nat.zero_add] at hpre
  rw [← hev] at hpre
  obtain ⟨-, -, hdisp, -, -⟩ := run_session env p hres hinit
  have hlast := run_getLast_of env p hres hinit
  have hstep := eventLoop_cons_of_raised env.onEvent front.length ev rest e hraise
  refine ⟨?_, ?_, ?_⟩
  · rw [hlast, hpre.1, hstep]
    rfl
  · rw [hdisp, hpre.2, hstep]
  · intro t ht
    simp [traceback, ht]

/-- C5 witness: a concrete handler raising `ValueError` on the first of
three queued events ends the session after a single dispatch with an
`Error` carrying the message and traceback text. -/
theorem c5_guest_raise_fatal_witness :
    (run envRaise).trace.getLast? = some (.Error
      "error in Python module at /abs/op.py: ValueError: x\nTraceback...") ∧
    (run envRaise).dispatches = 1 := by
  have h := c5_guest_raise_fatal envRaise "/abs/op.py" [] .other [.other, .other]
    ⟨"ValueError: x", some "\nTraceback..."⟩ rfl rfl rfl
    (fun j hj => absurd hj (Nat.not_lt_zero j)) rfl
  exact ⟨h.1, h.2.1⟩

/-- C4: if the upstream channel is closed before any event arrives and
handler initialization succeeded, the session delivers exactly the single
event `Finished{InputsClosed}` — a normal termination with no `Output`
events and no dispatches. -/
theorem c4_inputs_closed (env : Env) (p : String)
    (hres : resolvePath env.src env.source env.node_id env.operator_id = .ok p)
    (hinit : init_operator env.init = .ok)
    (hev : env.events = []) :
    (run env).trace = [.Finished .InputsClosed] ∧ (run env).dispatches = 0 ∧
    (run env).result = .ok () := by
  obtain ⟨hok, htr, hd, -, -⟩ := run_session env p hres hinit
  rw [hev] at htr hd
  exact ⟨htr, hd, hok⟩

/-- C4 witness: the concrete immediately-closed session. -/
theorem c4_inputs_closed_witness :
    (run envClosed).trace = [.Finished .InputsClosed] ∧
    (run envClosed).dispatches = 0 ∧ (run envClosed).result = .ok () :=
  c4_inputs_closed envClosed "/abs/op.py" rfl rfl rfl

/-- C6: a successful output-callback call with identifier `out`, payload
bytes `data` and parsed metadata `md` delivers exactly one `Output` event
on the outgoing channel, with the same identifier, the same metadata and
the payload bytes preserved exactly. -/
theorem c6_output_roundtrip (out : String) (data : List Nat) (md : Metadata) :
    sendOutputCall true out data (.ok md) = (.ok (), [.Output out md data]) :=
  rfl

/-- C7: a failure inside the output callback — metadata parse failure or a
closed outgoing channel — is returned to the guest caller as a local error
with nothing delivered, and does not by itself change the outcome of the
handler call: a guest that handles the exception proceeds to its own
outcome, while a guest that lets it propagate turns it into a raised
exception (which then ends the session as a dispatch error). -/
theorem c7_callback_errors_local (out : String) (data : List Nat) (e : String)
    (md : Metadata) (b : GuestBehavior) :
    (sendOutputCall true out data (.error e) = (.error "Could not parse metadata.", [])) ∧
    (sendOutputCall false out data (.ok md) =
      (.error "failed to send output to runtime", [])) ∧
    (b.handleCallbackError = true → (guestCall b).2 = b.outcome) ∧
    (∀ e', b.handleCallbackError = false →
      (processAttempts false b.attempts).2 = some e' →
      (guestCall b).2 = .raised ⟨e', none⟩) := by
  refine ⟨rfl, rfl, ?_, ?_⟩
  · intro hb
    have hnone := processAttempts_handled b.attempts
    rcases hp : processAttempts true b.attempts with ⟨evs, r⟩
    rw [hp] at hnone
    simp only at hnone
    subst hnone
    simp [guestCall, hb, hp]
  · intro e' hb hsome
    rcases hp : processAttempts false b.attempts with ⟨evs, r⟩
    rw [hp] at hsome
    simp only at hsome
    subst hsome
    simp [guestCall, hb, hp]

/-- C7 witness: a guest that swallows a failing (bad-metadata) output call
still reaches its own `Continue` outcome; one that lets it propagate turns
the local error into a raised exception. -/
theorem c7_callback_errors_local_witness :
    sendOutputCall true "o" [1] (.error "bad") = (.error "Could not parse metadata.", []) ∧
    (guestCall ⟨[⟨"o", [1], .error "bad", true⟩], true, .status 0⟩).2 = .status 0 ∧
    (guestCall ⟨[⟨"o", [1], .error "bad", true⟩], false, .status 0⟩).2 =
      .raised ⟨"Could not parse metadata.", none⟩ :=
  ⟨(c7_callback_errors_local "o" [1] "bad" ⟨⟨""⟩⟩
      ⟨[⟨"o", [1], .error "bad", true⟩], true, .status 0⟩).1,
    (c7_callback_errors_local "o" [1] "bad" ⟨⟨""⟩⟩
      ⟨[⟨"o", [1], .error "bad", true⟩], true, .status 0⟩).2.2.1 rfl,
    (c7_callback_errors_local "o" [1] "bad" ⟨⟨""⟩⟩
      ⟨[⟨"o", [1], .error "bad", true⟩], false, .status 0⟩).2.2.2
      "Could not parse metadata." rfl rfl⟩

/-- C8: once the session body has started, `run` returns `Ok(())` to its
caller no matter what; a panic unwinding out of the closure is captured by
`catch_unwind` and reported as the terminal `Panic` event (the spec's
`Aborted`, a constructor distinct from `Error`), and an ordinary error is
reported as the terminal `Error` event — neither propagates. -/
theorem c8_abort_containment (env : Env) (p : String)
    (hres : resolvePath env.src env.source env.node_id env.operator_id = .ok p) :
    (run env).result = .ok () ∧
    (∀ info, (python_runner env.init env.onEvent env.events).result = .panicked info →
      (run env).trace.getLast? = some (.Panic info)) ∧
    (∀ e, (python_runner env.init env.onEvent env.events).result = .err e →
      (run env).trace.getLast? = some (.Error
        ("error in Python module at " ++ p ++ ": " ++ e))) := by
  have hr := run_eq env p hres
  refine ⟨by rw [hr], ?_, ?_⟩
  · intro info hi
    rw [hr]
    show ((python_runner env.init env.onEvent env.events).sent ++
      [terminalEvent p (python_runner env.init env.onEvent env.events).result]).getLast? = _
    rw [hi, getLast_append_singleton]
    rfl
  · intro e he
    rw [hr]
    show ((python_runner env.init env.onEvent env.events).sent ++
      [terminalEvent p (python_runner env.init env.onEvent env.events).result]).getLast? = _
    rw [he, getLast_append_singleton]
    rfl

/-- C8 witness: a concrete guest panic is contained — `run` returns
`Ok(())` and the trace ends with the `Panic` terminal event. -/
theorem c8_abort_containment_witness :
    (run envPanic).result = .ok () ∧
    (run envPanic).trace.getLast? = some (.Panic "stack overflow") :=
  ⟨(c8_abort_containment envPanic "/abs/op.py" rfl).1,
    (c8_abort_containment envPanic "/abs/op.py" rfl).2.1 "stack overflow" rfl⟩

/-- C9 counterexample: a session whose handler instance is constructed
(`init_operator` succeeds) but which terminates through a guest error
never executes the explicit GIL-held `drop(operator)` of lines 164-168:
the `?` operator leaves `python_runner` before that code, so the instance
is reclaimed implicitly, not explicitly under the lock — contradicting
"destroyed explicitly while holding the lock on every termination path". -/
theorem c9_counterexample :
    init_operator envRaise.init = .ok ∧
    (run envRaise).dispatches = 1 ∧
    (run envRaise).trace.getLast? = some (.Error
      "error in Python module at /abs/op.py: ValueError: x\nTraceback...") ∧
    (run envRaise).explicitDrop = false :=
  ⟨rfl, rfl, rfl, rfl⟩

/-- C9 amended: for sessions in which the handler instance is constructed,
the explicit, synchronous, GIL-held destruction of lines 164-168 is
executed exactly when the event loop terminates normally with a
`StopReason` (`InputsClosed`, `ExplicitStop`, `ExplicitStopAll`); on error
and abort terminations that explicit teardown is skipped and the instance
is left to implicit reclamation. -/
theorem c9_explicit_drop_on_normal_stop (env : Env) (p : String)
    (hres : resolvePath env.src env.source env.node_id env.operator_id = .ok p)
    (hinit : init_operator env.init = .ok) :
    (run env).explicitDrop = true ↔
      ∃ r, (python_runner env.init env.onEvent env.events).result = .ok r := by
  obtain ⟨-, -, -, -, hd⟩ := run_session env p hres hinit
  rw [hd, python_runner_eq_loop env.init env.onEvent env.events hinit]
  show (eventLoop env.onEvent 0 env.events).outcome.isReason = true ↔
    ∃ r, (eventLoop env.onEvent 0 env.events).outcome.toResult = .ok r
  cases (eventLoop env.onEvent 0 env.events).outcome <;>
    simp [LoopEnd.isReason, LoopEnd.toResult]

/-- C9 amended witness: a concrete normally-terminating session (inputs
closed) does execute the explicit GIL-held drop. -/
theorem c9_explicit_drop_on_normal_stop_witness :
    (run envClosed).explicitDrop = true :=
  (c9_explicit_drop_on_normal_stop envClosed "/abs/op.py" rfl rfl).mpr
    ⟨.InputsClosed, rfl⟩

end DoraPython
